import Mathlib

/-!
Verification of the multi-provider imagery resolution and tile-compositing
engine. The definitions below are shallow embeddings of the route handlers in
`src/app/api/fetch-copernicus-image/copernicus-availability/route.ts` (the
GIBS tile/stitch route, provider C), the NASA imagery route (provider A) and
the client-side handlers in `src/app/InteractiveMapExplorer.tsx`. External
HTTP fetches are modelled as explicit outcome parameters; the sharp image
library is modelled by its documented effect on dimensions and on the cell
contents composited into a canvas.
-/

/-- A Web-Mercator tile index, as used in tile URLs: zoom level plus column x
and row y. -/
structure TileCoordinate where
  zoom : Int
  x : Int
  y : Int
deriving DecidableEq, Repr

/-- A decoded image payload: its dimensions plus a flag marking the opaque
white placeholder buffer (the code allocates a 256*256*3 buffer of 0xff
bytes for a failed tile). -/
structure Img where
  width : Int
  height : Int
  white : Bool
deriving DecidableEq, Repr

/-- The opaque white 256 by 256 placeholder the code allocates for a tile
whose fetch resolved with a non-success status: Buffer.alloc(256*256*3,
0xff), raw pixel data with no encoded image header. -/
def whiteTile256 : Img := { width := 256, height := 256, white := true }

/-- Outcome of one upstream HTTP fetch of an image or tile URL:
the promise resolves with a success response carrying an image, resolves
with a non-success status, or rejects (transport error). -/
inductive UpstreamResult where
  | success (img : Img)
  | httpFailure (status : Int)
  | transportFailure
deriving DecidableEq, Repr

/-- An encoded image response body: its dimensions plus the row-major list of
source cells composited into it. A single unresized tile is the one-cell
composite of itself. The code groups the cells into rows of tilesPerSide,
stitches each row left to right and stacks the rows top to bottom; that
grouping is determined by tilesPerSide and the row-major cell order kept
here. -/
structure Composite where
  width : Int
  height : Int
  cells : List Img
deriving DecidableEq, Repr

/-- A response of the GIBS route handler: an image body together with the
x-gibs-layer and x-gibs-date headers, or a JSON error object with an HTTP
status. -/
inductive RouteResponse where
  | image (body : Composite) (layerHeader : String) (dateHeader : String)
  | jsonError (msg : String) (status : Int)
deriving DecidableEq, Repr

/-- The upstream GIBS WMTS tile URL: layer, date, then zoom, row y, column x,
exactly as interpolated in the route handler. -/
def gibsTileUrl (layer date : String) (z y x : Int) : String :=
  "https://gibs.earthdata.nasa.gov/wmts/epsg3857/best/" ++ layer ++ "/default/" ++
    date ++ "/GoogleMapsCompatible_Level9/" ++ toString z ++ "/" ++ toString y ++
    "/" ++ toString x ++ ".jpg"

/-- Math.ceil(resolution / 256) for the positive resolutions that reach the
stitch branch of the route (resolution greater than 256). -/
def tilesPerSideFor (resolution : Int) : Nat := (resolution.toNat + 255) / 256

/-- The row-major list of (tileX, tileY) pairs fetched by the stitch branch:
dy is the outer loop, dx the inner one, and the start corner is the center
tile minus floor(t / 2) in each axis. -/
def tileGridCoords (x y : Int) (t : Nat) : List (Int × Int) :=
  (List.range t).flatMap (fun (dy : Nat) =>
    (List.range t).map (fun (dx : Nat) =>
      (x - ((t / 2 : Nat) : Int) + (dx : Int), y - ((t / 2 : Nat) : Int) + (dy : Int))))

/-- The continuation attached to each tile fetch promise in the stitch branch:
a success response yields its buffer, a non-success status yields null, and a
transport error leaves the promise rejected. -/
def tileThen : UpstreamResult → Except Unit (Option Img)
  | .success i => .ok (some i)
  | .httpFailure _ => .ok none
  | .transportFailure => .error ()

/-- Promise.all over a list of settled promises: the list of values if every
promise is fulfilled, and a rejection as soon as any promise is rejected. -/
def promiseAll {α : Type} : List (Except Unit α) → Except Unit (List α)
  | [] => .ok []
  | .ok a :: rest => (promiseAll rest).map (fun l => a :: l)
  | .error e :: _ => .error e

/-- The stitch branch of the GIBS route (resolution greater than 256): fetch
the tilesPerSide squared grid concurrently and await all of them inside a
try/catch - a rejected fetch rejects the await. The code then substitutes
Buffer.alloc(256*256*3, 0xff) for each null buffer and hands every buffer to
the sharp composite without a raw descriptor; sharp treats a bare buffer as
an encoded image and cannot decode the constant raw placeholder, so the row
stitch throws whenever any buffer was null. Both throws land in the same
catch block, so the 500 stitch error is returned when any tile fetch
rejected or resolved non-ok, and only when every tile succeeded does the
stitch complete and resize to exactly resolution by resolution. -/
def gibsStitch (layer date : String) (z x y resolution : Int)
    (upstream : String → UpstreamResult) : RouteResponse :=
  let t := tilesPerSideFor resolution
  let fetched := (tileGridCoords x y t).map
    (fun p => tileThen (upstream (gibsTileUrl layer date z p.2 p.1)))
  match promiseAll fetched with
  | .error _ => .jsonError "Failed to stitch GIBS tiles." 500
  | .ok tileBuffers =>
    if tileBuffers.any (fun o => o.isNone) then
      .jsonError "Failed to stitch GIBS tiles." 500
    else
      .image { width := resolution, height := resolution,
               cells := tileBuffers.map (fun o => o.getD whiteTile256) } layer date

/-- The single-tile branch of the GIBS route (resolution at most 256): fetch
one tile and return its bytes unresized, propagating a non-success upstream
status and catching a transport error as a 500. -/
def gibsSingleTile (layer date : String) (z x y : Int)
    (upstream : String → UpstreamResult) : RouteResponse :=
  match upstream (gibsTileUrl layer date z y x) with
  | .success i =>
    .image { width := i.width, height := i.height, cells := [i] } layer date
  | .httpFailure s => .jsonError "Failed to fetch GIBS tile." s
  | .transportFailure => .jsonError "Error fetching GIBS tile." 500

/-- The default branch of the GIBS route GET handler, after the action
branches: z, x, y and resolution are parsed from the query string with
defaults 8, 0, 0 and 256 (a missing parameter yields its default), requests
whose parsed z, x and y are all falsy are rejected with a 400, and the
handler then stitches when resolution exceeds 256 and fetches a single tile
otherwise. The upstream argument gives the outcome of fetching each URL. -/
def gibsRoute (layer date : String) (qz qx qy qres : Option Int)
    (upstream : String → UpstreamResult) : RouteResponse :=
  let z := qz.getD 8
  let x := qx.getD 0
  let y := qy.getD 0
  let resolution := qres.getD 256
  if z = 0 ∧ x = 0 ∧ y = 0 then
    .jsonError "Missing tile coordinates (z, x, y)" 400
  else if resolution > 256 then
    gibsStitch layer date z x y resolution upstream
  else
    gibsSingleTile layer date z x y upstream

/-- Outcome of the exact-date NASA assets query: failure covers a rejected
fetch, a non-success status and a JSON parse error; success carries the dates
of the returned results. -/
inductive AssetsOutcome where
  | failure
  | success (dates : List String)
deriving DecidableEq, Repr

/-- Outcome of a NASA imagery fetch: a success response, a non-success status,
or a rejected fetch. -/
inductive ImgFetch where
  | success
  | httpFailure (status : Int)
  | transportFailure
deriving DecidableEq, Repr

/-- A response of the NASA route handler: image bytes with the
x-image-metadata and x-nasa-available-dates headers, a JSON error with a
status, or the 404 unavailable JSON carrying availableDates and
closestDate. -/
inductive NasaResponse where
  | image (metadata : String) (availableDates : List String)
  | jsonError (msg : String) (status : Int)
  | unavailable (msg : String) (availableDates : List String)
      (closestDate : Option String)
deriving DecidableEq, Repr

/-- The NASA route GET handler (provider A). The exact-date assets query
yields assets; the plus or minus 7 day assets query yields window (none when
that fetch failed or returned a non-success status, in which case the handler
keeps an empty list). availableDates and closestDate are computed from the
exact-date query only; the handler fetches the imagery URL for the requested
date when that date is among the exact-date results, otherwise it falls back
to fetching the same imagery URL directly, and only when that fallback also
fails does it return the 404 unavailable JSON. -/
def nasaGET (date : String) (assets : AssetsOutcome) (window : Option (List String))
    (imagery fallbackImagery : ImgFetch) : NasaResponse :=
  let availableDates := match assets with
    | .success ds => ds
    | .failure => []
  let closestDate : Option String := match assets with
    | .success ds => ds.head?
    | .failure => none
  let assetsError := match assets with
    | .success _ => false
    | .failure => true
  let availableDates7 := window.getD []
  if assetsError = false ∧ date ∈ availableDates then
    match imagery with
    | .success => .image date availableDates7
    | .httpFailure s => .jsonError "Failed to fetch NASA image." s
    | .transportFailure => .jsonError "Failed to fetch NASA image." 500
  else
    match fallbackImagery with
    | .success => .image (closestDate.getD date) availableDates7
    | .httpFailure _ =>
      .unavailable "No imagery available for this date/location." availableDates7 closestDate
    | .transportFailure =>
      .unavailable "No imagery available for this date/location." availableDates7 closestDate

/-- One step of the closest-candidate linear scan used by the client for
providers B and C: best and minDiff are the current best candidate and its
absolute difference, and each remaining candidate replaces them exactly when
its difference is strictly smaller. -/
def scanGo {α : Type} (toTime : α → Int) (req : Int) : α → Int → List α → α
  | best, _, [] => best
  | best, minDiff, d :: ds =>
    if |toTime d - req| < minDiff then scanGo toTime req d (|toTime d - req|) ds
    else scanGo toTime req best minDiff ds

/-- The closest-candidate selection of the client (providers B and C): the
best candidate starts at the first list entry with its own difference as
minDiff, and the loop then runs over the whole list with the strict
comparison diff < minDiff. -/
def closestScan {α : Type} (toTime : α → Int) (req : Int) : List α → Option α
  | [] => none
  | c :: cs => some (scanGo toTime req c (|toTime c - req|) (c :: cs))

/-- new Date of 2024-01-01 in milliseconds UTC, as getTime returns it. -/
def ms20240101 : Int := 1704067200000

/-- new Date of 2024-01-08 in milliseconds UTC. -/
def ms20240108 : Int := 1704672000000

/-- new Date of 2024-01-10 in milliseconds UTC. -/
def ms20240110 : Int := 1704844800000

/-- new Date of 2024-01-20 in milliseconds UTC. -/
def ms20240120 : Int := 1705708800000

/-- Outcome of the client available-dates query for a GIBS layer: a rejected
fetch, a non-success response, or a success response carrying the parsed
comma-separated Time dimension entries. -/
inductive DatesFetch where
  | netFailure
  | notOk
  | ok (dates : List String)
deriving DecidableEq, Repr

/-- The client-side tile URL built by handleFetchImage for the GIBS source,
interpolating layer, requested date, z, x and y. -/
def clientGibsTileUrl (layer date : String) (z x y : Int) : String :=
  "/api/fetch-gibs-image?layer=" ++ layer ++ "&date=" ++ date ++ "&z=" ++
    toString z ++ "&x=" ++ toString x ++ "&y=" ++ toString y

/-- The GIBS branch of the client handleFetchImage, reduced to its data flow:
the tile URL is built from the requested date before the available-dates
query runs, and the resolver result only feeds the gibsActualDate metadata
(null when the query rejected, the requested date when it returned non-ok or
an empty list, and otherwise the closest entry under the linear scan). The
returned pair is the fetched tile URL and the displayed actual date. -/
def gibsFetchPlan (layer date : String) (x y : Int) (toTime : String → Int)
    (reqMs : Int) (datesResp : DatesFetch) : String × Option String :=
  let z : Int := 8
  let tileUrl := clientGibsTileUrl layer date z x y
  let actualDate : Option String :=
    match datesResp with
    | .netFailure => none
    | .notOk => some date
    | .ok ds =>
      match closestScan toTime reqMs ds with
      | some c => some c
      | none => some date
  (tileUrl, actualDate)

/-- The tile index computation shared by the client handlers: the spherical
Web-Mercator formula with n = 2 to the zoom, x from the longitude and y from
the latitude, each floored to an integer. -/
noncomputable def pointToTile (lat lon : Real) (zoom : Nat) : TileCoordinate :=
  let n : Real := 2 ^ zoom
  let x : Int := ⌊(lon + 180) / 360 * n⌋
  let y : Int :=
    ⌊(1 - Real.log (Real.tan (lat * Real.pi / 180) + 1 / Real.cos (lat * Real.pi / 180)) /
        Real.pi) / 2 * n⌋
  { zoom := Int.ofNat zoom, x := x, y := y }

/-- The tile formula exactly as the specification states it, written
independently of the handler code for comparison: x is the floor of
(lon + 180) / 360 times 2 to the zoom and y is the floor of the Mercator
latitude expression times the same power. -/
noncomputable def pointToTileSpec (lat lon : Real) (zoom : Nat) : TileCoordinate where
  zoom := Int.ofNat zoom
  x := ⌊(lon + 180) / 360 * 2 ^ zoom⌋
  y := ⌊(1 - Real.log (Real.tan (lat * Real.pi / 180) + 1 / Real.cos (lat * Real.pi / 180)) /
        Real.pi) / 2 * 2 ^ zoom⌋

/-- The tile computation of the client GIBS availability handler: it applies
the Mercator formula at zoom 8 unconditionally, with no domain check of any
kind. The Except codomain records that the handler has no failure path, so
that the result can be compared with the validation the specification
describes. -/
noncomputable def gibsCheckAvailabilityTile (lat lon : Real) :
    Except String TileCoordinate :=
  Except.ok (pointToTile lat lon 8)

/-- Modelled from the spec: the validating tile computation the specification
describes but the repository does not contain, failing with InvalidCoordinate
for a latitude outside plus or minus 90 degrees, a longitude outside plus or
minus 180 degrees, or a latitude whose cosine vanishes at the poles. -/
noncomputable def pointToTileChecked (lat lon : Real) (zoom : Nat) :
    Except String TileCoordinate :=
  if lat < -90 ∨ 90 < lat ∨ lon < -180 ∨ 180 < lon ∨
      Real.cos (lat * Real.pi / 180) = 0 then
    Except.error "InvalidCoordinate"
  else
    Except.ok (pointToTile lat lon zoom)


/-- A generic successfully fetched native tile of 256 by 256 pixels. -/
def tile256 : Img := { width := 256, height := 256, white := false }

/-- An upstream where every fetch succeeds with a native 256 by 256 tile. -/
def upAllOk : String → UpstreamResult := fun _ => .success tile256

/-- An upstream where exactly the tile at row 9, column 9 of layer L, date D,
zoom 8 rejects at transport level and every other fetch succeeds. -/
def upOneNet : String → UpstreamResult := fun u =>
  if u = gibsTileUrl "L" "D" 8 9 9 then .transportFailure else .success tile256

/-- An upstream where exactly the tile at row 9, column 9 of layer L, date D,
zoom 8 resolves with a 404 status and every other fetch succeeds. -/
def upOneHttp : String → UpstreamResult := fun u =>
  if u = gibsTileUrl "L" "D" 8 9 9 then .httpFailure 404 else .success tile256

/-- C7: when the exact-date assets query fails (network, status or parse),
the NASA handler degrades to the fallback direct imagery fetch for the same
requested date; a successful fallback returns the image, and only a failing
fallback surfaces an error, which is the structured unavailable JSON with a
human-readable reason - a rejected fallback fetch is absorbed the same way,
never rethrown. -/
theorem c7_nasa_fallback (date : String) (window : Option (List String))
    (imagery : ImgFetch) (s : Int) :
    nasaGET date .failure window imagery .success =
      .image date (window.getD []) ∧
    nasaGET date .failure window imagery (.httpFailure s) =
      .unavailable "No imagery available for this date/location." (window.getD []) none ∧
    nasaGET date .failure window imagery .transportFailure =
      .unavailable "No imagery available for this date/location." (window.getD []) none := by
  refine ⟨?_, ?_, ?_⟩ <;> simp [nasaGET]

/-- C7 witness: the fallback behavior at a concrete request. -/
theorem c7_witness :
    nasaGET "2024-01-08" .failure (some ["2024-01-05"]) .transportFailure .success =
      .image "2024-01-08" ["2024-01-05"] ∧
    nasaGET "2024-01-08" .failure (some ["2024-01-05"]) .transportFailure (.httpFailure 503) =
      .unavailable "No imagery available for this date/location." ["2024-01-05"] none ∧
    nasaGET "2024-01-08" .failure (some ["2024-01-05"]) .transportFailure .transportFailure =
      .unavailable "No imagery available for this date/location." ["2024-01-05"] none :=
  c7_nasa_fallback "2024-01-08" (some ["2024-01-05"]) .transportFailure 503

/-- C4 counterexample: at a request whose exact-date query succeeds with no
results while the plus or minus 7 day window query returns two dates, the
unavailable response exposes closestDate none rather than the first entry of
the window, refuting the claim that the exposed closest candidate is the
chronologically first entry of the window. -/
theorem c4_counterexample :
    nasaGET "2024-01-08" (.success []) (some ["2024-01-05", "2024-01-06"]) .success
        (.httpFailure 404) =
      .unavailable "No imagery available for this date/location."
        ["2024-01-05", "2024-01-06"] none ∧
    (none : Option String) ≠ some "2024-01-05" := by
  exact ⟨by decide, by decide⟩

/-- C4 amended: when the requested date is among the exact-date results and
the imagery fetch succeeds, the resolved-date metadata equals the requested
date; otherwise the unavailable response carries exactly the window query
dates as candidates, and the exposed closestDate is the head of the
exact-date query results - none when that query failed - not the first entry
of the window. -/
theorem c4_nasa_availability (date : String) (ds : List String)
    (window : Option (List String)) (imagery : ImgFetch) (s : Int) :
    (date ∈ ds →
      nasaGET date (.success ds) window .success imagery =
        .image date (window.getD [])) ∧
    (date ∉ ds →
      nasaGET date (.success ds) window imagery (.httpFailure s) =
        .unavailable "No imagery available for this date/location."
          (window.getD []) ds.head?) ∧
    nasaGET date .failure window imagery (.httpFailure s) =
      .unavailable "No imagery available for this date/location."
        (window.getD []) none := by
  refine ⟨fun h => ?_, fun h => ?_, ?_⟩ <;> simp [nasaGET, *]

/-- C4 witness: the amended behavior at a concrete unavailable request whose
exact-date query returned a nonempty result list not containing the
requested date. -/
theorem c4_witness :
    nasaGET "2024-01-08" (.success ["2024-01-03"])
        (some ["2024-01-03", "2024-01-05"]) .success (.httpFailure 404) =
      .unavailable "No imagery available for this date/location."
        ["2024-01-03", "2024-01-05"] (some "2024-01-03") :=
  (c4_nasa_availability "2024-01-08" ["2024-01-03"]
    (some ["2024-01-03", "2024-01-05"]) .success 404).2.1 (by decide)

lemma gibsStitch_ne_missing (layer date : String) (z x y res : Int)
    (up : String → UpstreamResult) :
    gibsStitch layer date z x y res up ≠
      RouteResponse.jsonError "Missing tile coordinates (z, x, y)" 400 := by
  simp only [gibsStitch]
  split
  · intro h
    simp only [RouteResponse.jsonError.injEq] at h
    exact absurd h.1 (by decide)
  · split
    · intro h
      simp only [RouteResponse.jsonError.injEq] at h
      exact absurd h.1 (by decide)
    · intro h
      exact RouteResponse.noConfusion h

lemma gibsSingleTile_ne_missing (layer date : String) (z x y : Int)
    (up : String → UpstreamResult) :
    gibsSingleTile layer date z x y up ≠
      RouteResponse.jsonError "Missing tile coordinates (z, x, y)" 400 := by
  simp only [gibsSingleTile]
  split
  · intro h
    exact RouteResponse.noConfusion h
  · intro h
    simp only [RouteResponse.jsonError.injEq] at h
    exact absurd h.1 (by decide)
  · intro h
    simp only [RouteResponse.jsonError.injEq] at h
    exact absurd h.1 (by decide)

/-- C10 counterexample: a request with an explicit z of 0 and missing x and y
is rejected with the 400 missing-coordinates error instead of proceeding,
while a request missing z altogether proceeds to the tile fetch because z
defaults to 8 rather than 0 - refuting both that absent parameters default
to 0 and that a request missing only some coordinates always proceeds. -/
theorem c10_counterexample :
    gibsRoute "L" "D" (some 0) none none (some 256) upAllOk =
      RouteResponse.jsonError "Missing tile coordinates (z, x, y)" 400 ∧
    gibsRoute "L" "D" none (some 0) (some 0) (some 256) upAllOk ≠
      RouteResponse.jsonError "Missing tile coordinates (z, x, y)" 400 := by
  exact ⟨by decide, by decide⟩

/-- C10 amended: the 400 missing-coordinates response is returned exactly
when the parsed z, x and y are all zero, where an absent x or y defaults to 0
but an absent z defaults to 8; in particular the valid zoom-0 request with
explicit z, x, y all 0 is rejected, and a request whose parsed triple is not
all zero proceeds past the check. -/
theorem c10_missing_coords (layer date : String) (qz qx qy qres : Option Int)
    (up : String → UpstreamResult) :
    gibsRoute layer date qz qx qy qres up =
        RouteResponse.jsonError "Missing tile coordinates (z, x, y)" 400 ↔
      (qz.getD 8 = 0 ∧ qx.getD 0 = 0 ∧ qy.getD 0 = 0) := by
  constructor
  · intro h
    simp only [gibsRoute] at h
    split at h
    · next hc => exact hc
    · split at h
      · exact absurd h (gibsStitch_ne_missing _ _ _ _ _ _ _)
      · exact absurd h (gibsSingleTile_ne_missing _ _ _ _ _ _)
  · intro hz
    simp only [gibsRoute, if_pos hz]

/-- C10 witness: the amended equivalence at the concrete zoom-0 request. -/
theorem c10_witness :
    gibsRoute "L" "D" (some 0) (some 0) (some 0) (some 256) upAllOk =
        RouteResponse.jsonError "Missing tile coordinates (z, x, y)" 400 ↔
      ((some 0 : Option Int).getD 8 = 0 ∧ (some 0 : Option Int).getD 0 = 0 ∧
        (some 0 : Option Int).getD 0 = 0) :=
  c10_missing_coords "L" "D" (some 0) (some 0) (some 0) (some 256) upAllOk

/-- C9 counterexample: the out-of-domain latitude 100 still produces a tile
coordinate from the availability handler, which applies the Mercator formula
unconditionally, while the validating function the specification describes
would fail with InvalidCoordinate there - so it is false that every input
with latitude outside plus or minus 90 fails. -/
theorem c9_counterexample :
    (90 : Real) < 100 ∧
    gibsCheckAvailabilityTile 100 0 = Except.ok (pointToTile 100 0 8) ∧
    pointToTileChecked 100 0 8 = Except.error "InvalidCoordinate" := by
  refine ⟨by norm_num, rfl, ?_⟩
  have hc : (100 : Real) < -90 ∨ (90 : Real) < 100 ∨ (0 : Real) < -180 ∨
      (180 : Real) < 0 ∨ Real.cos (100 * Real.pi / 180) = 0 :=
    Or.inr (Or.inl (by norm_num))
  simp only [pointToTileChecked, if_pos hc]

/-- C9 amended: the handler performs no coordinate validation at all - for
every latitude and longitude, in or out of domain, it returns the computed
TileCoordinate and never fails with any error, InvalidCoordinate included. -/
theorem c9_no_validation (lat lon : Real) :
    gibsCheckAvailabilityTile lat lon = Except.ok (pointToTile lat lon 8) ∧
    ∀ msg : String, gibsCheckAvailabilityTile lat lon ≠ Except.error msg :=
  ⟨rfl, fun _ h => Except.noConfusion h⟩

/-- C9 witness: the amended behavior at the out-of-domain latitude 100. -/
theorem c9_witness :
    gibsCheckAvailabilityTile 100 0 = Except.ok (pointToTile 100 0 8) ∧
    ∀ msg : String, gibsCheckAvailabilityTile 100 0 ≠ Except.error msg :=
  c9_no_validation 100 0

/-- C3 counterexample: at resolution 512 the grid is 2 by 2 and, for center
tile (10, 10), contains the center and the tiles one step toward smaller
indices, but no tile with index 11 on the larger-index side - the even-grid
asymmetry puts the extra tile on the negative side, refuting the claimed
positive-side asymmetry. -/
theorem c3_counterexample :
    tilesPerSideFor 512 = 2 ∧
    ((10 : Int), (10 : Int)) ∈ tileGridCoords 10 10 2 ∧
    ((9 : Int), (9 : Int)) ∈ tileGridCoords 10 10 2 ∧
    ((11 : Int), (10 : Int)) ∉ tileGridCoords 10 10 2 ∧
    ((11 : Int), (11 : Int)) ∉ tileGridCoords 10 10 2 := by
  decide

/-- C3 amended: for resolution above 256 the stitch branch uses tilesPerSide
equal to the ceiling of resolution over 256, and builds a tilesPerSide by
tilesPerSide grid whose offsets from the center tile span from minus
floor(t / 2) up to t - 1 - floor(t / 2) in each axis; for even t the grid is
asymmetric with the extra tile on the negative (smaller-index) side of the
center tile, not the positive side. -/
theorem c3_grid_layout (x y : Int) (t : Nat) (ht : 1 ≤ t) :
    (∀ a b : Int, (a, b) ∈ tileGridCoords x y t ↔
      (x - ((t / 2 : Nat) : Int) ≤ a ∧ a < x - ((t / 2 : Nat) : Int) + (t : Int) ∧
       y - ((t / 2 : Nat) : Int) ≤ b ∧ b < y - ((t / 2 : Nat) : Int) + (t : Int))) ∧
    (t % 2 = 0 →
      (x - ((t / 2 : Nat) : Int), y) ∈ tileGridCoords x y t ∧
      (x + ((t / 2 : Nat) : Int), y) ∉ tileGridCoords x y t) ∧
    (∀ res : Int, 256 < res →
      res ≤ 256 * ((tilesPerSideFor res : Nat) : Int) ∧
      256 * ((tilesPerSideFor res : Nat) : Int) < res + 256) := by
  have hmem : ∀ a b : Int, (a, b) ∈ tileGridCoords x y t ↔
      (x - ((t / 2 : Nat) : Int) ≤ a ∧ a < x - ((t / 2 : Nat) : Int) + (t : Int) ∧
       y - ((t / 2 : Nat) : Int) ≤ b ∧ b < y - ((t / 2 : Nat) : Int) + (t : Int)) := by
    intro a b
    simp only [tileGridCoords, List.mem_flatMap, List.mem_map, List.mem_range]
    constructor
    · rintro ⟨dy, hdy, dx, hdx, heq⟩
      rw [Prod.mk.injEq] at heq
      obtain ⟨hx, hy⟩ := heq
      omega
    · rintro ⟨h1, h2, h3, h4⟩
      refine ⟨(b - (y - ((t / 2 : Nat) : Int))).toNat, by omega,
        (a - (x - ((t / 2 : Nat) : Int))).toNat, by omega, ?_⟩
      rw [Prod.mk.injEq]
      constructor <;> omega
  refine ⟨hmem, fun he => ⟨?_, ?_⟩, fun res hres => ?_⟩
  · exact (hmem _ _).mpr (by omega)
  · intro hc
    have := (hmem _ _).mp hc
    omega
  · simp only [tilesPerSideFor]
    omega

/-- C3 witness: the amended grid layout at center (10, 10) with the even
side count 2 arising from resolution 512. -/
theorem c3_witness :
    (∀ a b : Int, (a, b) ∈ tileGridCoords 10 10 2 ↔
      ((10 : Int) - ((2 / 2 : Nat) : Int) ≤ a ∧ a < 10 - ((2 / 2 : Nat) : Int) + ((2 : Nat) : Int) ∧
       (10 : Int) - ((2 / 2 : Nat) : Int) ≤ b ∧ b < 10 - ((2 / 2 : Nat) : Int) + ((2 : Nat) : Int))) ∧
    (2 % 2 = 0 →
      ((10 : Int) - ((2 / 2 : Nat) : Int), (10 : Int)) ∈ tileGridCoords 10 10 2 ∧
      ((10 : Int) + ((2 / 2 : Nat) : Int), (10 : Int)) ∉ tileGridCoords 10 10 2) ∧
    (∀ res : Int, 256 < res →
      res ≤ 256 * ((tilesPerSideFor res : Nat) : Int) ∧
      256 * ((tilesPerSideFor res : Nat) : Int) < res + 256) :=
  c3_grid_layout 10 10 2 (by decide)

/-- C2: evaluation of the code at the failing input - resolution 512 around
center tile (10, 10), where the tile at row 9, column 9 resolves with a 404
and the other three tiles succeed: the route returns the 500 stitch error
instead of a composite with a white placeholder cell, because the
substituted Buffer.alloc raw buffer cannot be decoded by sharp and the
thrown error lands in the same catch block. A transport-level rejection of
that tile aborts identically through the rejected Promise.all, and with
every tile succeeding the same request yields the 512 by 512 composite,
showing the failed tile alone causes the abort. -/
theorem c2_stitch_bug :
    gibsRoute "L" "D" (some 8) (some 10) (some 10) (some 512) upOneHttp =
      RouteResponse.jsonError "Failed to stitch GIBS tiles." 500 ∧
    upOneHttp (gibsTileUrl "L" "D" 8 9 9) = .httpFailure 404 ∧
    upOneHttp (gibsTileUrl "L" "D" 8 9 10) = .success tile256 ∧
    upOneHttp (gibsTileUrl "L" "D" 8 10 9) = .success tile256 ∧
    upOneHttp (gibsTileUrl "L" "D" 8 10 10) = .success tile256 ∧
    gibsRoute "L" "D" (some 8) (some 10) (some 10) (some 512) upOneNet =
      RouteResponse.jsonError "Failed to stitch GIBS tiles." 500 ∧
    gibsRoute "L" "D" (some 8) (some 10) (some 10) (some 512) upAllOk =
      RouteResponse.image
        { width := 512, height := 512,
          cells := [tile256, tile256, tile256, tile256] } "L" "D" := by
  decide

/-- C1: for every requested resolution in 256, 512, 1024 or 2048, whenever
the GIBS route returns an image its dimensions equal exactly the requested
resolution - at resolutions above 256 the stitched canvas is resized to
resolution by resolution, and at 256 the single native tile (256 by 256 by
hypothesis on the provider) is returned unresized. -/
theorem c1_output_dimensions (layer date : String) (qz qx qy qres : Option Int)
    (up : String → UpstreamResult)
    (hres : qres.getD 256 ∈ ([256, 512, 1024, 2048] : List Int))
    (htile : ∀ u i, up u = UpstreamResult.success i → i.width = 256 ∧ i.height = 256)
    (body : Composite) (lh dh : String)
    (himg : gibsRoute layer date qz qx qy qres up = RouteResponse.image body lh dh) :
    body.width = qres.getD 256 ∧ body.height = qres.getD 256 := by
  simp only [gibsRoute] at himg
  split at himg
  · exact absurd himg (by simp)
  · split at himg
    · simp only [gibsStitch] at himg
      split at himg
      · exact absurd himg (by simp)
      · split at himg
        · exact absurd himg (by simp)
        · rw [RouteResponse.image.injEq] at himg
          rw [← himg.1]
          exact ⟨rfl, rfl⟩
    · rename_i hc hle
      have h256 : qres.getD 256 = 256 := by
        simp only [List.mem_cons, List.not_mem_nil, or_false] at hres
        rcases hres with h | h | h | h <;> omega
      simp only [gibsSingleTile] at himg
      split at himg
      · rename_i i hi
        rw [RouteResponse.image.injEq] at himg
        rw [← himg.1, h256]
        exact htile _ _ hi
      · exact absurd himg (by simp)
      · exact absurd himg (by simp)

/-- C1 witness: a concrete 512-pixel request against a healthy upstream of
native 256 by 256 tiles produces exactly a 512 by 512 image. -/
theorem c1_witness :
    ({ width := 512, height := 512,
       cells := [tile256, tile256, tile256, tile256] } : Composite).width =
        (some (512 : Int)).getD 256 ∧
    ({ width := 512, height := 512,
       cells := [tile256, tile256, tile256, tile256] } : Composite).height =
        (some (512 : Int)).getD 256 :=
  c1_output_dimensions "L" "D" (some 8) (some 10) (some 10) (some 512) upAllOk
    (by decide)
    (fun u i h => by
      cases h
      exact ⟨rfl, rfl⟩)
    { width := 512, height := 512, cells := [tile256, tile256, tile256, tile256] }
    "L" "D" (by decide)

lemma scanGo_first_min {α : Type} (toTime : α → Int) (req : Int) :
    ∀ (ds : List α) (best : α), ∃ r,
      scanGo toTime req best (|toTime best - req|) ds = r ∧
      ((r = best ∧ ∀ d ∈ ds, |toTime best - req| ≤ |toTime d - req|) ∨
       (r ∈ ds ∧ |toTime r - req| < |toTime best - req| ∧
        (∀ d ∈ ds, |toTime r - req| ≤ |toTime d - req|) ∧
        (ds.filter (fun d => decide (|toTime d - req| ≤ |toTime r - req|))).head? =
          some r)) := by
  intro ds
  induction ds with
  | nil =>
    intro best
    exact ⟨best, rfl, Or.inl ⟨rfl, by simp⟩⟩
  | cons d ds ih =>
    intro best
    by_cases h : |toTime d - req| < |toTime best - req|
    · obtain ⟨r, hr, hcase⟩ := ih d
      refine ⟨r, by rw [scanGo, if_pos h]; exact hr, Or.inr ?_⟩
      rcases hcase with ⟨rfl, hmin⟩ | ⟨hmem, hlt, hmin, hhead⟩
      · refine ⟨List.mem_cons_self _ _, h, ?_, ?_⟩
        · intro e he
          rcases List.mem_cons.mp he with rfl | he2
          · exact le_refl _
          · exact hmin e he2
        · rw [List.filter_cons]
          simp
      · refine ⟨List.mem_cons_of_mem d hmem, lt_trans hlt h, ?_, ?_⟩
        · intro e he
          rcases List.mem_cons.mp he with rfl | he2
          · exact le_of_lt hlt
          · exact hmin e he2
        · rw [List.filter_cons]
          rw [decide_eq_false (not_le.mpr hlt)]
          simpa using hhead
    · obtain ⟨r, hr, hcase⟩ := ih best
      refine ⟨r, by rw [scanGo, if_neg h]; exact hr, ?_⟩
      rcases hcase with ⟨rfl, hmin⟩ | ⟨hmem, hlt, hmin, hhead⟩
      · refine Or.inl ⟨rfl, ?_⟩
        intro e he
        rcases List.mem_cons.mp he with rfl | he2
        · exact not_lt.mp h
        · exact hmin e he2
      · refine Or.inr ⟨List.mem_cons_of_mem d hmem, hlt, ?_, ?_⟩
        · intro e he
          rcases List.mem_cons.mp he with rfl | he2
          · exact le_trans (le_of_lt hlt) (not_lt.mp h)
          · exact hmin e he2
        · rw [List.filter_cons]
          rw [decide_eq_false (not_le.mpr (lt_of_lt_of_le hlt (not_lt.mp h)))]
          simpa using hhead

/-- C5: the closest-candidate selection is the linear scan with the strict
comparison diff < minDiff: on any nonempty candidate list it returns a member
minimizing the absolute time difference to the request, and ties are broken
in favor of the candidate appearing earliest in the original order - the
result is the head of the sublist of candidates whose difference is at most
its own; in particular, for the candidate dates 2024-01-01, 2024-01-10 and
2024-01-20 and requested date 2024-01-08 it selects 2024-01-10. -/
theorem c5_closest_selection :
    (∀ (α : Type) (toTime : α → Int) (req : Int) (c : α) (cs : List α), ∃ r,
      closestScan toTime req (c :: cs) = some r ∧ r ∈ c :: cs ∧
      (∀ d ∈ c :: cs, |toTime r - req| ≤ |toTime d - req|) ∧
      ((c :: cs).filter
        (fun d => decide (|toTime d - req| ≤ |toTime r - req|))).head? = some r) ∧
    closestScan (fun t => t) ms20240108 [ms20240101, ms20240110, ms20240120] =
      some ms20240110 := by
  constructor
  · intro α toTime req c cs
    obtain ⟨r, hr, hcase⟩ := scanGo_first_min toTime req (c :: cs) c
    refine ⟨r, by rw [closestScan, hr], ?_, ?_, ?_⟩
    · rcases hcase with ⟨rfl, _⟩ | ⟨hmem, _⟩
      · exact List.mem_cons_self _ _
      · exact hmem
    · rcases hcase with ⟨rfl, hmin⟩ | ⟨_, _, hmin, _⟩ <;> exact hmin
    · rcases hcase with ⟨rfl, hmin⟩ | ⟨_, _, _, hhead⟩
      · rw [List.filter_cons]
        simp
      · exact hhead
  · decide

/-- C5 witness: the concrete tie-free instance from the specification, dates
encoded as their UTC millisecond timestamps. -/
theorem c5_witness :
    closestScan (fun t => t) ms20240108 [ms20240101, ms20240110, ms20240120] =
      some ms20240110 :=
  c5_closest_selection.2

/-- C6: for provider C the fetched tile address is a function of the layer,
the requested date and the tile indices only: the client tile URL equals the
URL built from the requested date and is unchanged across any two outcomes of
the availability resolver, whose output reaches only the metadata component;
and the server route calls its upstream only at tile URLs built from the
requested date, so two upstreams that agree on all requested-date tile URLs
produce identical route responses. -/
theorem c6_requested_date_addressing (layer date : String) (x y : Int)
    (toTime : String → Int) (reqMs : Int) (r1 r2 : DatesFetch)
    (qz qx qy qres : Option Int) (up up2 : String → UpstreamResult)
    (hagree : ∀ z2 y2 x2 : Int,
      up (gibsTileUrl layer date z2 y2 x2) = up2 (gibsTileUrl layer date z2 y2 x2)) :
    (gibsFetchPlan layer date x y toTime reqMs r1).1 =
      (gibsFetchPlan layer date x y toTime reqMs r2).1 ∧
    (gibsFetchPlan layer date x y toTime reqMs r1).1 =
      clientGibsTileUrl layer date 8 x y ∧
    gibsRoute layer date qz qx qy qres up = gibsRoute layer date qz qx qy qres up2 := by
  refine ⟨rfl, rfl, ?_⟩
  simp only [gibsRoute]
  by_cases hc : (qz.getD 8 = 0 ∧ qx.getD 0 = 0 ∧ qy.getD 0 = 0)
  · rw [if_pos hc, if_pos hc]
  · rw [if_neg hc, if_neg hc]
    by_cases hr : qres.getD 256 > 256
    · rw [if_pos hr, if_pos hr]
      simp only [gibsStitch]
      have hmaps : (tileGridCoords (qx.getD 0) (qy.getD 0)
            (tilesPerSideFor (qres.getD 256))).map
          (fun p => tileThen (up (gibsTileUrl layer date (qz.getD 8) p.2 p.1))) =
        (tileGridCoords (qx.getD 0) (qy.getD 0)
            (tilesPerSideFor (qres.getD 256))).map
          (fun p => tileThen (up2 (gibsTileUrl layer date (qz.getD 8) p.2 p.1))) :=
        List.map_congr_left (fun p _ => by rw [hagree])
      rw [hmaps]
    · rw [if_neg hr, if_neg hr]
      simp only [gibsSingleTile, hagree]

/-- C6 witness: the addressing property at a concrete request with two
resolver outcomes that differ and an upstream agreeing with itself. -/
theorem c6_witness :
    (gibsFetchPlan "L" "2024-01-08" 10 10 (fun _ => 0) ms20240108 .netFailure).1 =
      (gibsFetchPlan "L" "2024-01-08" 10 10 (fun _ => 0) ms20240108
        (.ok ["2024-01-05"])).1 ∧
    (gibsFetchPlan "L" "2024-01-08" 10 10 (fun _ => 0) ms20240108 .netFailure).1 =
      clientGibsTileUrl "L" "2024-01-08" 8 10 10 ∧
    gibsRoute "L" "2024-01-08" (some 8) (some 10) (some 10) (some 256) upAllOk =
      gibsRoute "L" "2024-01-08" (some 8) (some 10) (some 10) (some 256) upAllOk :=
  c6_requested_date_addressing "L" "2024-01-08" 10 10 (fun _ => 0) ms20240108
    .netFailure (.ok ["2024-01-05"]) (some 8) (some 10) (some 10) (some 256)
    upAllOk upAllOk (fun _ _ _ => rfl)

/-- C8: the tile computation implements exactly the specified spherical
Web-Mercator formula - it agrees with the formula written independently from
the specification, its x and y components are the stated floors, and it is
deterministic: equal inputs give equal tile coordinates. -/
theorem c8_point_to_tile (lat lon lat2 lon2 : Real) (zoom : Nat)
    (h1 : lat = lat2) (h2 : lon = lon2) :
    pointToTile lat lon zoom = pointToTileSpec lat lon zoom ∧
    (pointToTile lat lon zoom).x = ⌊(lon + 180) / 360 * 2 ^ zoom⌋ ∧
    (pointToTile lat lon zoom).y =
      ⌊(1 - Real.log (Real.tan (lat * Real.pi / 180) +
          1 / Real.cos (lat * Real.pi / 180)) / Real.pi) / 2 * 2 ^ zoom⌋ ∧
    pointToTile lat lon zoom = pointToTile lat2 lon2 zoom := by
  subst h1
  subst h2
  exact ⟨rfl, rfl, rfl, rfl⟩

/-- C8 witness: the formula and determinism at the concrete New York City
coordinates used in the specification scenario. -/
theorem c8_witness :
    pointToTile 40.7128 (-74.006) 8 = pointToTileSpec 40.7128 (-74.006) 8 ∧
    (pointToTile 40.7128 (-74.006) 8).x = ⌊((-74.006 : Real) + 180) / 360 * 2 ^ 8⌋ ∧
    (pointToTile 40.7128 (-74.006) 8).y =
      ⌊(1 - Real.log (Real.tan ((40.7128 : Real) * Real.pi / 180) +
          1 / Real.cos ((40.7128 : Real) * Real.pi / 180)) / Real.pi) / 2 * 2 ^ 8⌋ ∧
    pointToTile 40.7128 (-74.006) 8 = pointToTile 40.7128 (-74.006) 8 :=
  c8_point_to_tile 40.7128 (-74.006) 40.7128 (-74.006) 8 rfl rfl
